import Mathlib

/-!
# hcltemplate: the orchestration pipeline of `main.go`

`main.go` is glue around external libraries (pflag, hcl, go-cty).  The
embedding below keeps the control flow of `main`, `showDiags`,
`exitWithDiags`, `usage` and `functions` as it is written, and takes every
call into a library or into the operating system from a `World` record, so
that the theorems hold for whatever those calls return; where a theorem needs
a fact about a library, the fact is one of its hypotheses.  Process effects are
recorded, in program order, in a trace of `Event`s; a call to `os.Exit`, a
return from `main` and a Go panic are the three ways a run ends.

The small part of go-cty that `main` relies on directly (`Type`,
`IsObjectType`, `Equals`, `AsValueMap`, `AsString`) is given as definitions
on a datatype of values, following the library's documented behaviour.
-/

namespace hcltemplate

/-- Byte buffers (`[]byte`). -/
abbrev Bytes := List UInt8

/-! ## go-cty types and values -/

/-- The type of a `cty.Value` (`cty.DynamicPseudoType`, `cty.Bool`,
`cty.Number`, `cty.String`, and the collection and structural types).
Attribute lists stand for the library's attribute maps and are kept in one
fixed order. -/
inductive CtyType where
  | dynamicPseudoType
  | bool
  | number
  | string
  | list (ety : CtyType)
  | map (ety : CtyType)
  | set (ety : CtyType)
  | tuple (etys : List CtyType)
  | object (atys : List (String × CtyType))

mutual
/-- Structural equality of types, `Type.Equals`. -/
def CtyType.Equals : CtyType → CtyType → Bool
  | .dynamicPseudoType, .dynamicPseudoType => true
  | .bool, .bool => true
  | .number, .number => true
  | .string, .string => true
  | .list a, .list b => a.Equals b
  | .map a, .map b => a.Equals b
  | .set a, .set b => a.Equals b
  | .tuple as, .tuple bs => tupleEquals as bs
  | .object as, .object bs => objectEquals as bs
  | _, _ => false
/-- Element-wise equality of tuple element types. -/
def tupleEquals : List CtyType → List CtyType → Bool
  | [], [] => true
  | a :: as, b :: bs => a.Equals b && tupleEquals as bs
  | _, _ => false
/-- Attribute-wise equality of object attribute types. -/
def objectEquals : List (String × CtyType) → List (String × CtyType) → Bool
  | [], [] => true
  | (k, a) :: as, (l, b) :: bs => k == l && a.Equals b && objectEquals as bs
  | _, _ => false
end

/-- The test `Type.IsObjectType`. -/
def CtyType.IsObjectType : CtyType → Bool
  | .object _ => true
  | _ => false

/-- A `cty.Value`: a null or unknown value of some type, or a known value
built by one of the library's constructors. -/
inductive CtyValue where
  | NullVal (ty : CtyType)
  | UnknownVal (ty : CtyType)
  | BoolVal (b : Bool)
  | NumberVal (n : Rat)
  | StringVal (s : String)
  | ListVal (ety : CtyType) (vs : List CtyValue)
  | MapVal (ety : CtyType) (elems : List (String × CtyValue))
  | SetVal (ety : CtyType) (vs : List CtyValue)
  | TupleVal (vs : List CtyValue)
  | ObjectVal (attrs : List (String × CtyValue))

mutual
/-- The type of a value, `Value.Type`. -/
def CtyValue.Type : CtyValue → CtyType
  | .NullVal ty => ty
  | .UnknownVal ty => ty
  | .BoolVal _ => .bool
  | .NumberVal _ => .number
  | .StringVal _ => .string
  | .ListVal ety _ => .list ety
  | .MapVal ety _ => .map ety
  | .SetVal ety _ => .set ety
  | .TupleVal vs => .tuple (typesOf vs)
  | .ObjectVal attrs => .object (attrTypesOf attrs)
/-- Types of the elements of a tuple value. -/
def typesOf : List CtyValue → List CtyType
  | [] => []
  | v :: vs => v.Type :: typesOf vs
/-- Types of the attributes of an object value. -/
def attrTypesOf : List (String × CtyValue) → List (String × CtyType)
  | [] => []
  | (k, v) :: rest => (k, v.Type) :: attrTypesOf rest
end

/-- The accessor `Value.AsString`: the Go string of a known, non-null string
value.  On anything else the library panics; the error carries the panic
message. -/
def CtyValue.AsString : CtyValue → Except String String
  | .StringVal s => .ok s
  | .NullVal ty => if ty.Equals .string then .error "value is null" else .error "not a string"
  | .UnknownVal ty => if ty.Equals .string then .error "value is unknown" else .error "not a string"
  | _ => .error "not a string"

/-- The accessor `Value.AsValueMap`: the name-to-value map of a known object
or map value (`nil`, the empty map, when it has no elements).  The library
returns `nil` early when the length is zero, which for an object type is known
from the type alone, and otherwise iterates over the elements, which panics on
null and unknown values and on values that are not collections; the error
carries the panic message. -/
def CtyValue.AsValueMap : CtyValue → Except String (List (String × CtyValue))
  | .ObjectVal attrs => .ok attrs
  | .MapVal _ elems => .ok elems
  | .NullVal (.object []) => .ok []
  | .UnknownVal (.object []) => .ok []
  | .NullVal _ => .error "cannot use ElementIterator on null value"
  | .UnknownVal _ => .error "cannot use ElementIterator on unknown value"
  | _ => .error "value is not a collection or object"

/-! ## hcl diagnostics, expressions and evaluation contexts -/

/-- Severities of `hcl.Diagnostic`, in the order of the library's constants. -/
inductive DiagnosticSeverity where
  | DiagInvalid
  | DiagError
  | DiagWarning
  deriving DecidableEq, Repr

/-- A source position, `hcl.Pos`. -/
structure Pos where
  Line : Nat
  Column : Nat
  deriving DecidableEq, Repr

/-- A source range, `hcl.Range`. -/
structure Range where
  Filename : String
  Start : Pos
  End : Pos
  deriving DecidableEq, Repr

/-- One `hcl.Diagnostic`: severity, summary, detail and an optional subject
range. -/
structure Diagnostic where
  Severity : DiagnosticSeverity
  Summary : String
  Detail : String
  Subject : Option Range := none
  deriving DecidableEq, Repr

/-- The sequence type `hcl.Diagnostics`. -/
abbrev Diagnostics := List Diagnostic

/-- The method `Diagnostics.HasErrors`: some element has severity
`DiagError`. -/
def HasErrors (diags : Diagnostics) : Bool :=
  diags.any (fun diag => diag.Severity == .DiagError)

/-- The implementations the registry refers to, one constructor for each
library function value named in `functions`. -/
inductive CtyFunction where
  | stdlib_AbsoluteFunc
  | tryfunc_CanFunc
  | stdlib_CSVDecodeFunc
  | stdlib_CoalesceFunc
  | stdlib_ConcatFunc
  | typeexpr_ConvertFunc
  | stdlib_FormatFunc
  | stdlib_FormatDateFunc
  | stdlib_IntFunc
  | stdlib_JSONDecodeFunc
  | stdlib_JSONEncodeFunc
  | stdlib_LengthFunc
  | stdlib_LowerFunc
  | stdlib_MaxFunc
  | stdlib_MinFunc
  | stdlib_RangeFunc
  | stdlib_RegexFunc
  | stdlib_RegexAllFunc
  | stdlib_ReverseFunc
  | stdlib_StrlenFunc
  | stdlib_SubstrFunc
  | tryfunc_TryFunc
  | stdlib_UpperFunc
  deriving DecidableEq, Repr

/-- The context `hcl.EvalContext`; Go maps are association lists. -/
structure EvalContext where
  Variables : List (String × CtyValue)
  Functions : List (String × CtyFunction)

/-- A parsed template, `hclsyntax.Expression`: an interface value whose
method `Value` evaluates it in a context. -/
structure Expression where
  Value : EvalContext → CtyValue × Diagnostics

/-- A source file registered for diagnostic snippets, `hcl.File`. -/
structure File where
  Bytes : Bytes
  deriving DecidableEq

/-! ## The process and its environment -/

/-- The parsed command line, as `flag.Parse` leaves it: the value of the
`--version`/`-v` flag and the positional arguments `flag.Args()`.  An
invocation with the help flag or with an undefined flag ends inside
`flag.Parse`, with the status pflag chooses, and has no parsed command line:
`main` as defined below starts where `flag.Parse` has returned. -/
structure CommandLine where
  version : Bool
  args : List String

/-- Everything `main` obtains from outside: the file system, standard input,
the terminal, and the hcl and go-cty entry points it calls.  Errors are
represented by their message. -/
structure World where
  /-- The call `ioutil.ReadFile`. -/
  ReadFile : String → Except String Bytes
  /-- The call `ioutil.ReadAll(os.Stdin)`. -/
  ReadAllStdin : Except String Bytes
  /-- The call `hclsyntax.ParseTemplate`. -/
  ParseTemplate : Bytes → String → Pos → Expression × Diagnostics
  /-- The call `json.ImpliedType`. -/
  ImpliedType : Bytes → Except String CtyType
  /-- The call `json.Unmarshal`. -/
  Unmarshal : Bytes → CtyType → Except String CtyValue
  /-- The call `convert.Convert`. -/
  Convert : CtyValue → CtyType → Except String CtyValue
  /-- The call `terminal.GetSize`: width and height, or an error. -/
  GetSize : Nat → Except String (Nat × Nat)
  /-- The error, if any, of writing rendered diagnostics to `os.Stderr`. -/
  WriteDiagnostics : List (String × File) → Nat → Bool → Diagnostics → Option String

/-- Observable steps of a run, in program order. -/
inductive Event where
  | ReadFile (filename : String)
  | ParseTemplate (src : Bytes) (filename : String) (start : Pos)
  | ReadAllStdin
  | ImpliedType (src : Bytes)
  | Unmarshal (src : Bytes) (ty : CtyType)
  | Value (ctx : EvalContext)
  | Convert (val : CtyValue) (ty : CtyType)
  | GetSize (fd : Nat)
  | WriteDiagnostics (files : List (String × File)) (width : Nat) (color : Bool)
      (diags : Diagnostics)
  | Stdout (text : String)
  | Stderr (text : String)

/-- How a run ended: `os.Exit(code)` or a return from `main` (code 0), or a
Go panic, which the runtime reports on standard error before exiting with
status 2. -/
inductive Status where
  | exit (code : Nat)
  | panic (msg : String)
  deriving DecidableEq, Repr

/-- The process exit status. -/
def Status.code : Status → Nat
  | .exit code => code
  | .panic _ => 2

/-- Mutable process state: the trace so far and the package variable
`files`. -/
structure Proc where
  trace : List Event := []
  files : List (String × File) := []

/-- Append one event to the trace. -/
def Proc.emit (p : Proc) (e : Event) : Proc :=
  { p with trace := p.trace ++ [e] }

/-- The assignment `files[name] = f`. -/
def Proc.setFile (p : Proc) (name : String) (f : File) : Proc :=
  { p with files := p.files.filter (fun kv => kv.1 != name) ++ [(name, f)] }

/-- A finished run. -/
structure Run where
  proc : Proc
  status : Status

/-- The strings written to standard output by a list of events, in order. -/
def stdoutOf (trace : List Event) : List String :=
  trace.filterMap (fun e => match e with
    | .Stdout text => some text
    | _ => none)

/-- The diagnostics handed to the diagnostic writer on standard error by a
list of events, in order. -/
def renderedOf (trace : List Event) : Diagnostics :=
  (trace.filterMap (fun e => match e with
    | .WriteDiagnostics _ _ _ diags => some diags
    | _ => none)).flatten

/-- The contexts the template evaluator was invoked with, in order. -/
def evaluatedOf (trace : List Event) : List EvalContext :=
  trace.filterMap (fun e => match e with
    | .Value ctx => some ctx
    | _ => none)

/-- Whether the template file or standard input was read. -/
def readsOf (trace : List Event) : Bool :=
  trace.any (fun e => match e with
    | .ReadFile _ => true
    | .ReadAllStdin => true
    | _ => false)

/-- Whether standard input was read. -/
def readsStdinOf (trace : List Event) : Bool :=
  trace.any (fun e => match e with
    | .ReadAllStdin => true
    | _ => false)

/-- The strings a run wrote to standard output. -/
def Run.stdout (r : Run) : List String := stdoutOf r.proc.trace

/-- The diagnostics a run rendered to standard error. -/
def Run.rendered (r : Run) : Diagnostics := renderedOf r.proc.trace

/-- The contexts a run invoked the evaluator with. -/
def Run.evaluated (r : Run) : List EvalContext := evaluatedOf r.proc.trace

/-- Whether a run read standard input. -/
def Run.readsStdin (r : Run) : Bool := readsStdinOf r.proc.trace

/-! ## The program -/

/-- Package variable `GitCommit`, empty unless set when the program is built. -/
def GitCommit : String := ""

/-- Package variable `Version`. -/
def Version : String := "v0.0.0"

/-- Package variable `Prerelease`. -/
def Prerelease : String := "dev"

/-- The text `usage` prints. -/
def usageText : String :=
  "Usage: hcltemplate <templatefile>\n\nThis program expects to find valid JSON object data on its stdin, which it will use to render the given template.\n\n"

/-- The function `usage`: print the usage text on standard error. -/
def usage (p : Proc) : Proc :=
  p.emit (.Stderr usageText)

/-- The function `functions`: the registry handed to the evaluator. -/
def functions : List (String × CtyFunction) :=
  [ ("abs", .stdlib_AbsoluteFunc),
    ("can", .tryfunc_CanFunc),
    ("csvdecode", .stdlib_CSVDecodeFunc),
    ("coalesce", .stdlib_CoalesceFunc),
    ("concat", .stdlib_ConcatFunc),
    ("convert", .typeexpr_ConvertFunc),
    ("format", .stdlib_FormatFunc),
    ("formatdate", .stdlib_FormatDateFunc),
    ("int", .stdlib_IntFunc),
    ("jsondecode", .stdlib_JSONDecodeFunc),
    ("jsonencode", .stdlib_JSONEncodeFunc),
    ("length", .stdlib_LengthFunc),
    ("lower", .stdlib_LowerFunc),
    ("max", .stdlib_MaxFunc),
    ("min", .stdlib_MinFunc),
    ("range", .stdlib_RangeFunc),
    ("regex", .stdlib_RegexFunc),
    ("regexall", .stdlib_RegexAllFunc),
    ("reverse", .stdlib_ReverseFunc),
    ("strlen", .stdlib_StrlenFunc),
    ("substr", .stdlib_SubstrFunc),
    ("try", .tryfunc_TryFunc),
    ("upper", .stdlib_UpperFunc) ]

/-- The function `showDiags`: ask for the terminal width of descriptor 1
(72 columns and no colour when that fails), write the diagnostics to standard
error, and end the process through `log.Fatalf` (status 1) when the write
fails.  The result is the continuing process, or the finished run. -/
def showDiags (w : World) (p : Proc) (diags : Diagnostics) : Except Run Proc :=
  let p := p.emit (.GetSize 1)
  let width : Nat := match w.GetSize 1 with
    | .ok size => size.1
    | .error _ => 72
  let color : Bool := match w.GetSize 1 with
    | .ok _ => true
    | .error _ => false
  let p := p.emit (.WriteDiagnostics p.files width color diags)
  match w.WriteDiagnostics p.files width color diags with
  | none => .ok p
  | some err =>
    .error ⟨p.emit (.Stderr ("failed to write diagnostic messages: " ++ err)), .exit 1⟩

/-- The function `exitWithDiags`: show the diagnostics, then exit with
status 1 when they contain an error and with status 0 otherwise. -/
def exitWithDiags (w : World) (p : Proc) (diags : Diagnostics) : Run :=
  match showDiags w p diags with
  | .error r => r
  | .ok p => if HasErrors diags then ⟨p, .exit 1⟩ else ⟨p, .exit 0⟩

/-- The function `main`, from the point where `flag.Parse` has returned. -/
def main (w : World) (cl : CommandLine) : Run :=
  let p : Proc := {}
  if cl.version then
    let versionStr := if Prerelease != "" then Version ++ "-" ++ Prerelease else Version
    ⟨p.emit (.Stdout ("hcltemplate " ++ versionStr ++ "\n")), .exit 0⟩
  else if h : cl.args.length ≠ 1 then
    ⟨usage p, .exit 1⟩
  else
    let diags : Diagnostics := []
    let tmplFn := cl.args[0]
    let p := p.emit (.ReadFile tmplFn)
    match w.ReadFile tmplFn with
    | .error err =>
      exitWithDiags w p (diags ++ [{
        Severity := .DiagError,
        Summary := "Cannot read template file",
        Detail := "Could not read " ++ tmplFn ++ ": " ++ err ++ "." }])
    | .ok tmplSrc =>
    let p := p.setFile tmplFn { Bytes := tmplSrc }
    let p := p.emit (.ParseTemplate tmplSrc tmplFn { Line := 1, Column := 1 })
    let expr := (w.ParseTemplate tmplSrc tmplFn { Line := 1, Column := 1 }).1
    let moreDiags := (w.ParseTemplate tmplSrc tmplFn { Line := 1, Column := 1 }).2
    let diags := diags ++ moreDiags
    if HasErrors moreDiags then exitWithDiags w p diags else
    let p := p.emit .ReadAllStdin
    match w.ReadAllStdin with
    | .error err =>
      exitWithDiags w p (diags ++ [{
        Severity := .DiagError,
        Summary := "Cannot read input data",
        Detail := "Could not read JSON input data from stdin: " ++ err ++ "." }])
    | .ok jsonSrc =>
    let p := p.emit (.ImpliedType jsonSrc)
    match w.ImpliedType jsonSrc with
    | .error err =>
      exitWithDiags w p (diags ++ [{
        Severity := .DiagError,
        Summary := "Cannot read input data",
        Detail := "Could not read JSON input data from stdin: " ++ err ++ "." }])
    | .ok ty =>
    let p := p.emit (.Unmarshal jsonSrc ty)
    match w.Unmarshal jsonSrc ty with
    | .error err =>
      exitWithDiags w p (diags ++ [{
        Severity := .DiagError,
        Summary := "Cannot read input data",
        Detail := "Could not read JSON input data from stdin: " ++ err ++ "." }])
    | .ok val =>
    if !val.Type.IsObjectType then
      exitWithDiags w p (diags ++ [{
        Severity := .DiagError,
        Summary := "Invalid input data",
        Detail := "Input data on stdin must be a JSON object." }])
    else
    match val.AsValueMap with
    | .error msg => ⟨p, .panic msg⟩
    | .ok vars =>
    let ctx : EvalContext := { Variables := vars, Functions := functions }
    let p := p.emit (.Value ctx)
    let resultVal := (expr.Value ctx).1
    let moreDiags := (expr.Value ctx).2
    let diags := diags ++ moreDiags
    if HasErrors moreDiags then exitWithDiags w p diags else
    let p := p.emit (.Convert resultVal .string)
    match w.Convert resultVal .string with
    | .error _ =>
      exitWithDiags w p (diags ++ [{
        Severity := .DiagError,
        Summary := "Invalid template result",
        Detail := "Template must produce a string result." }])
    | .ok resultStrVal =>
    if !resultStrVal.Type.Equals .string then
      exitWithDiags w p (diags ++ [{
        Severity := .DiagError,
        Summary := "Invalid template result",
        Detail := "Template must produce a string result." }])
    else
    match resultStrVal.AsString with
    | .error msg => ⟨p, .panic msg⟩
    | .ok s => ⟨p.emit (.Stdout s), .exit 0⟩

/-! ## Concrete runs

Each world below fixes a template file, a standard input and what the
libraries return on them.  Only the inputs the run presents to a library call
matter; on those the entries follow the behaviour of hcl and go-cty. -/

/-- The conversion `convert.Convert` on the values the runs below present: a
value that already has the wanted type is returned as it is, and a null value
of any type becomes the null value of the wanted type, without an error. -/
def convertKnown (val : CtyValue) (ty : CtyType) : Except String CtyValue :=
  match val with
  | .NullVal _ => .ok (.NullVal ty)
  | v => if v.Type.Equals ty then .ok v else .error "unsuitable value type"

/-- A template made of the single interpolation of variable `name`: its value
is the value of the variable, whatever its type, and a reference to an
undefined variable is an error. -/
def interpolation (name : String) : Expression where
  Value := fun ctx =>
    match ctx.Variables.lookup name with
    | some v => (v, [])
    | none =>
      (.UnknownVal .dynamicPseudoType,
        [{ Severity := .DiagError, Summary := "Unknown variable",
           Detail := "There is no variable named \"" ++ name ++ "\"." }])

/-- A template of literal text only. -/
def literal (text : String) : Expression where
  Value := fun _ => (.StringVal text, [])

/-- The template of scenario A, the text "Hello, ", the variable `name`, "!". -/
def greeting : Expression where
  Value := fun ctx =>
    match ctx.Variables.lookup "name" with
    | some (.StringVal s) => (.StringVal ("Hello, " ++ s ++ "!"), [])
    | _ =>
      (.UnknownVal .string,
        [{ Severity := .DiagError, Summary := "Invalid template interpolation value",
           Detail := "Cannot include the given value in a string template." }])

/-- A world with one readable template file `tmplFn` that parses to `parsed`,
and a standard input `jsonSrc` that decodes to `val` of type `ty`; standard
output is not a terminal and standard error is writable. -/
def fixture (tmplFn : String) (tmplSrc : Bytes) (parsed : Expression × Diagnostics)
    (jsonSrc : Bytes) (ty : CtyType) (val : CtyValue) : World where
  ReadFile := fun fn =>
    if fn = tmplFn then .ok tmplSrc else .error ("open " ++ fn ++ ": no such file or directory")
  ReadAllStdin := .ok jsonSrc
  ParseTemplate := fun _ _ _ => parsed
  ImpliedType := fun _ => .ok ty
  Unmarshal := fun _ _ => .ok val
  Convert := convertKnown
  GetSize := fun _ => .error "inappropriate ioctl for device"
  WriteDiagnostics := fun _ _ _ _ => none

/-- Scenario A: the file holds the text Hello, followed by the
interpolation of `name` and an exclamation mark (the bytes below), and
standard input the bytes of the object with `name` set to "World". -/
def scenarioA : World :=
  fixture "greeting.tmpl"
    [72, 101, 108, 108, 111, 44, 32, 36, 123, 110, 97, 109, 101, 125, 33]
    (greeting, [])
    [123, 34, 110, 97, 109, 101, 34, 58, 32, 34, 87, 111, 114, 108, 100, 34, 125]
    (.object [("name", .string)])
    (.ObjectVal [("name", .StringVal "World")])

/-- The template that is the single interpolation of `x` (dollar sign, opening
brace, x, closing brace), with the JSON object whose only member `x` is
null: the member decodes to the null value of the dynamic pseudo-type. -/
def nullResult : World :=
  fixture "x.tmpl"
    [36, 123, 120, 125]
    (interpolation "x", [])
    [123, 34, 120, 34, 58, 32, 110, 117, 108, 108, 125]
    (.object [("x", .dynamicPseudoType)])
    (.ObjectVal [("x", .NullVal .dynamicPseudoType)])

/-- The diagnostic of an interpolation that is opened and never closed. -/
def unclosedInterpolation : Diagnostic :=
  { Severity := .DiagError, Summary := "Unclosed template interpolation sequence",
    Detail := "There is no closing brace for this interpolation sequence.",
    Subject := some { Filename := "broken.tmpl", Start := { Line := 1, Column := 1 },
                      End := { Line := 1, Column := 3 } } }

/-- The template that opens an interpolation and never closes it (dollar sign,
opening brace), a syntax error, with the JSON array [1,2,3] on
standard input. -/
def brokenTemplateArrayInput : World :=
  fixture "broken.tmpl"
    [36, 123]
    (literal "", [unclosedInterpolation])
    [91, 49, 44, 50, 44, 51, 93]
    (.tuple [.number, .number, .number])
    (.TupleVal [.NumberVal 1, .NumberVal 2, .NumberVal 3])

/-- The template "plain text" with the JSON array [1,2,3] on standard input
(scenario D). -/
def scenarioD : World :=
  fixture "plain.tmpl"
    [112, 108, 97, 105, 110, 32, 116, 101, 120, 116]
    (literal "plain text", [])
    [91, 49, 44, 50, 44, 51, 93]
    (.tuple [.number, .number, .number])
    (.TupleVal [.NumberVal 1, .NumberVal 2, .NumberVal 3])

/-! ## Intermediate states of a run -/

/-- The diagnostic `main` builds when the decoded input is not an object. -/
def invalidInputData : Diagnostic :=
  { Severity := .DiagError, Summary := "Invalid input data",
    Detail := "Input data on stdin must be a JSON object." }

/-- The process before `main` has done anything. -/
def start : Proc := {}

/-- The process after the template file `tmplFn` was read and parsed. -/
def parsedProc (tmplFn : String) (tmplSrc : Bytes) : Proc :=
  ((start.emit (.ReadFile tmplFn)).setFile tmplFn { Bytes := tmplSrc }).emit
    (.ParseTemplate tmplSrc tmplFn { Line := 1, Column := 1 })

/-- The process after standard input was read and decoded with type `ty`. -/
def decodedProc (tmplFn : String) (tmplSrc jsonSrc : Bytes) (ty : CtyType) : Proc :=
  (((parsedProc tmplFn tmplSrc).emit .ReadAllStdin).emit (.ImpliedType jsonSrc)).emit
    (.Unmarshal jsonSrc ty)

/-! ## The diagnostics of a run, stage by stage -/

/-- What `exitWithDiags` adds to a run: it writes exactly the given
diagnostics to standard error, writes nothing to standard output, reads
nothing, evaluates nothing, and exits with status 1, or with status 0 when the
diagnostics hold no error. -/
theorem exitWithDiags_spec (w : World) (p : Proc) (diags : Diagnostics) :
    ∃ tail,
      (exitWithDiags w p diags).proc.trace = p.trace ++ tail ∧
      stdoutOf tail = [] ∧ renderedOf tail = diags ∧ evaluatedOf tail = [] ∧
      readsOf tail = false ∧ readsStdinOf tail = false ∧
      ((exitWithDiags w p diags).status = .exit 1 ∨
        (HasErrors diags = false ∧ (exitWithDiags w p diags).status = .exit 0)) := by
  unfold exitWithDiags showDiags
  simp only [Proc.emit]
  generalize (match w.GetSize 1 with
    | .ok size => size.1
    | .error _ => 72) = width
  generalize (match w.GetSize 1 with
    | .ok _ => true
    | .error _ => false) = color
  cases hw : w.WriteDiagnostics p.files width color diags with
  | none =>
    refine ⟨[.GetSize 1, .WriteDiagnostics p.files width color diags], ?_⟩
    cases he : HasErrors diags <;>
      simp [stdoutOf, renderedOf, evaluatedOf, readsOf, readsStdinOf]
  | some err =>
    refine ⟨[.GetSize 1, .WriteDiagnostics p.files width color diags,
      .Stderr ("failed to write diagnostic messages: " ++ err)], ?_⟩
    simp [stdoutOf, renderedOf, evaluatedOf, readsOf, readsStdinOf]

/-- The steps of `main` up to the shape check, when every stage before it
succeeds and the decoded value is not of an object type. -/
theorem main_not_object (w : World) (cl : CommandLine) (tmplFn : String)
    (tmplSrc jsonSrc : Bytes) (ty : CtyType) (val : CtyValue)
    (hv : cl.version = false) (ha : cl.args = [tmplFn])
    (hf : w.ReadFile tmplFn = .ok tmplSrc)
    (hp : HasErrors (w.ParseTemplate tmplSrc tmplFn { Line := 1, Column := 1 }).2 = false)
    (hs : w.ReadAllStdin = .ok jsonSrc)
    (ht : w.ImpliedType jsonSrc = .ok ty)
    (hu : w.Unmarshal jsonSrc ty = .ok val)
    (ho : val.Type.IsObjectType = false) :
    main w cl = exitWithDiags w (decodedProc tmplFn tmplSrc jsonSrc ty)
      ((w.ParseTemplate tmplSrc tmplFn { Line := 1, Column := 1 }).2 ++ [invalidInputData]) := by
  obtain ⟨version, args⟩ := cl
  simp only at hv ha
  subst hv ha
  simp [main, hf, hp, hs, ht, hu, ho, decodedProc, parsedProc, start, invalidInputData]

/-- A run that went through `exitWithDiags` evaluated what the process had
evaluated before. -/
theorem exitWithDiags_evaluated (w : World) (p : Proc) (diags : Diagnostics) :
    (exitWithDiags w p diags).evaluated = evaluatedOf p.trace := by
  obtain ⟨tail, ht, -, -, he, -⟩ := exitWithDiags_spec w p diags
  simp [Run.evaluated, ht, evaluatedOf] at he ⊢
  exact he

/-- A run that went through `exitWithDiags` wrote to standard output what the
process had written before. -/
theorem exitWithDiags_stdout (w : World) (p : Proc) (diags : Diagnostics) :
    (exitWithDiags w p diags).stdout = stdoutOf p.trace := by
  obtain ⟨tail, ht, ho, -⟩ := exitWithDiags_spec w p diags
  simp [Run.stdout, ht, stdoutOf] at ho ⊢
  exact ho

/-- A run that went through `exitWithDiags` rendered what the process had
rendered before, followed by the given diagnostics. -/
theorem exitWithDiags_rendered (w : World) (p : Proc) (diags : Diagnostics) :
    (exitWithDiags w p diags).rendered = renderedOf p.trace ++ diags := by
  obtain ⟨tail, ht, -, hr, -⟩ := exitWithDiags_spec w p diags
  simp [Run.rendered, ht, renderedOf] at hr ⊢
  exact hr

/-- A run that went through `exitWithDiags` read standard input only if the
process had read it before. -/
theorem exitWithDiags_readsStdin (w : World) (p : Proc) (diags : Diagnostics) :
    (exitWithDiags w p diags).readsStdin = readsStdinOf p.trace := by
  obtain ⟨tail, ht, -, -, -, -, hr, -⟩ := exitWithDiags_spec w p diags
  simp only [Run.readsStdin, ht, readsStdinOf, List.any_append] at hr ⊢
  rw [hr, Bool.or_false]

/-- With an error among the diagnostics, `exitWithDiags` ends the run with
status 1. -/
theorem exitWithDiags_status (w : World) (p : Proc) (diags : Diagnostics)
    (h : HasErrors diags = true) : (exitWithDiags w p diags).status = .exit 1 := by
  obtain ⟨tail, -, -, -, -, -, -, hs⟩ := exitWithDiags_spec w p diags
  rcases hs with hs | ⟨hs, -⟩
  · exact hs
  · rw [h] at hs; cases hs

/-- Appending an error diagnostic gives diagnostics with an error. -/
theorem hasErrors_append_error (diags : Diagnostics) (d : Diagnostic)
    (h : d.Severity = .DiagError) : HasErrors (diags ++ [d]) = true := by
  simp [HasErrors, h]

/-- Claim C2: if the evaluator is invoked at all during a run, then the version
flag was off, there was exactly one positional argument, the template file was
read, its parse reported no error, standard input was read, type inference and
decoding both succeeded, and the decoded value is of an object type.  So when
any of these fails the evaluator is never invoked. -/
theorem error_before_evaluate (w : World) (cl : CommandLine)
    (h : (main w cl).evaluated ≠ []) :
    cl.version = false ∧
    ∃ tmplFn tmplSrc jsonSrc ty val,
      cl.args = [tmplFn] ∧
      w.ReadFile tmplFn = .ok tmplSrc ∧
      HasErrors (w.ParseTemplate tmplSrc tmplFn { Line := 1, Column := 1 }).2 = false ∧
      w.ReadAllStdin = .ok jsonSrc ∧
      w.ImpliedType jsonSrc = .ok ty ∧
      w.Unmarshal jsonSrc ty = .ok val ∧
      val.Type.IsObjectType = true := by
  obtain ⟨version, args⟩ := cl
  cases version with
  | true => simp [main, Run.evaluated, evaluatedOf, Proc.emit] at h
  | false =>
    by_cases hlen : args.length ≠ 1
    · simp [main, hlen, Run.evaluated, evaluatedOf, Proc.emit, usage] at h
    · obtain ⟨tmplFn, rfl⟩ : ∃ tmplFn, args = [tmplFn] := by
        match args, hlen with
        | [a], _ => exact ⟨a, rfl⟩
        | [], h => simp at h
        | _ :: _ :: _, h => simp at h
      simp only [main, Bool.false_eq_true, if_false, List.length_singleton, ne_eq,
        not_true_eq_false, dite_false, List.getElem_cons_zero, List.nil_append] at h
      repeat' split at h
      all_goals try simp only [exitWithDiags_evaluated] at h
      all_goals simp_all [Run.evaluated, evaluatedOf, Proc.emit, Proc.setFile]

/-- A command line without the version flag and with one positional
argument is that argument alone. -/
theorem args_singleton (args : List String) (h : args.length = 1) :
    ∃ tmplFn, args = [tmplFn] := by
  match args, h with
  | [a], _ => exact ⟨a, rfl⟩

/-- Either a run wrote nothing to standard output, or it ended with status 0
and its last three steps were the evaluation, the conversion of its result and
the single write of the converted string. -/
theorem main_stdout_cases (w : World) (cl : CommandLine)
    (hv : cl.version = false) (ha : cl.args.length = 1) :
    (main w cl).stdout = [] ∨
    ((main w cl).status = .exit 0 ∧
      ∃ pre tmplFn tmplSrc ctx strVal s,
        cl.args = [tmplFn] ∧ w.ReadFile tmplFn = .ok tmplSrc ∧
        (main w cl).proc.trace =
          pre ++ [.Value ctx,
            .Convert ((w.ParseTemplate tmplSrc tmplFn { Line := 1, Column := 1 }).1.Value ctx).1
              .string,
            .Stdout s] ∧
        stdoutOf pre = [] ∧
        HasErrors ((w.ParseTemplate tmplSrc tmplFn { Line := 1, Column := 1 }).1.Value ctx).2
          = false ∧
        w.Convert ((w.ParseTemplate tmplSrc tmplFn { Line := 1, Column := 1 }).1.Value ctx).1
          .string = .ok strVal ∧
        strVal.Type.Equals .string = true ∧
        strVal.AsString = .ok s) := by
  obtain ⟨version, args⟩ := cl
  simp only at hv ha
  subst hv
  obtain ⟨tmplFn, rfl⟩ := args_singleton args ha
  simp only [main, Bool.false_eq_true, if_false, List.length_singleton, ne_eq,
    not_true_eq_false, dite_false, List.getElem_cons_zero, List.nil_append]
  repeat' split
  all_goals first
    | (left
       try simp only [exitWithDiags_stdout]
       simp [Run.stdout, stdoutOf, Proc.emit, Proc.setFile]
       done)
    | (right
       rename_i _ tmplSrc hf hp _ jsonSrc hs _ ty ht _ val hu ho _ vars hm he _ strVal hc hq _ s hsv
       refine ⟨rfl, [.ReadFile tmplFn, .ParseTemplate tmplSrc tmplFn { Line := 1, Column := 1 },
         .ReadAllStdin, .ImpliedType jsonSrc, .Unmarshal jsonSrc ty], tmplFn, tmplSrc,
         { Variables := vars, Functions := functions }, strVal, s, rfl, hf, ?_, ?_, ?_, hc, ?_, hsv⟩
       · simp [Proc.emit, Proc.setFile]
       · simp [stdoutOf]
       · simpa using he
       · simpa using hq)

/-- Claim C8: on a run with one positional argument and no version flag, exit
status 1 means nothing was written to standard output; standard output is
written at most once; and a write of `s` is the last step of the run, directly
after an evaluation of the parsed template without error and a conversion of
its result that succeeded with the string `s`. -/
theorem no_partial_output (w : World) (cl : CommandLine)
    (hv : cl.version = false) (ha : cl.args.length = 1) :
    ((main w cl).status.code = 1 → (main w cl).stdout = []) ∧
    (main w cl).stdout.length ≤ 1 ∧
    (∀ s ∈ (main w cl).stdout,
      ∃ pre tmplFn tmplSrc ctx strVal,
        cl.args = [tmplFn] ∧ w.ReadFile tmplFn = .ok tmplSrc ∧
        (main w cl).proc.trace =
          pre ++ [.Value ctx,
            .Convert ((w.ParseTemplate tmplSrc tmplFn { Line := 1, Column := 1 }).1.Value ctx).1
              .string,
            .Stdout s] ∧
        stdoutOf pre = [] ∧
        HasErrors ((w.ParseTemplate tmplSrc tmplFn { Line := 1, Column := 1 }).1.Value ctx).2
          = false ∧
        w.Convert ((w.ParseTemplate tmplSrc tmplFn { Line := 1, Column := 1 }).1.Value ctx).1
          .string = .ok strVal ∧
        strVal.AsString = .ok s) := by
  rcases main_stdout_cases w cl hv ha with
    h | ⟨hst, pre, tmplFn, tmplSrc, ctx, strVal, s, hargs, hf, ht, hpre, he, hc, -, hs⟩
  · simp [h]
  · have hout : (main w cl).stdout = [s] := by
      simp [Run.stdout, ht, stdoutOf] at hpre ⊢
      simpa [stdoutOf] using hpre
    refine ⟨?_, ?_, ?_⟩
    · intro hcode
      rw [hst] at hcode
      simp [Status.code] at hcode
    · simp [hout]
    · intro s' hs'
      rw [hout] at hs'
      simp at hs'
      subst hs'
      exact ⟨pre, tmplFn, tmplSrc, ctx, strVal, hargs, hf, ht, hpre, he, hc, hs⟩

/-- The steps of `main` when the template file is read and its parse reports
an error: the run ends in the reporter before standard input is read. -/
theorem main_parse_error (w : World) (cl : CommandLine) (tmplFn : String) (tmplSrc : Bytes)
    (hv : cl.version = false) (ha : cl.args = [tmplFn])
    (hf : w.ReadFile tmplFn = .ok tmplSrc)
    (hp : HasErrors (w.ParseTemplate tmplSrc tmplFn { Line := 1, Column := 1 }).2 = true) :
    main w cl = exitWithDiags w (parsedProc tmplFn tmplSrc)
      (w.ParseTemplate tmplSrc tmplFn { Line := 1, Column := 1 }).2 := by
  obtain ⟨version, args⟩ := cl
  simp only at hv ha
  subst hv ha
  simp [main, hf, hp, parsedProc, start]

/-- Claim C9: when the template is read and parses without error and standard
input decodes to an object value with attributes `attrs`, the evaluator is
invoked exactly once, with the context whose variable mapping is `attrs` itself
(same names, values unchanged, nested values left nested) and whose function
mapping is the result of `functions`.  The context is given by `attrs` alone,
so building it again from the same decoded value gives the same context. -/
theorem evaluation_context_is_root_object (w : World) (cl : CommandLine) (tmplFn : String)
    (tmplSrc jsonSrc : Bytes) (ty : CtyType) (attrs : List (String × CtyValue))
    (hv : cl.version = false) (ha : cl.args = [tmplFn])
    (hf : w.ReadFile tmplFn = .ok tmplSrc)
    (hp : HasErrors (w.ParseTemplate tmplSrc tmplFn { Line := 1, Column := 1 }).2 = false)
    (hs : w.ReadAllStdin = .ok jsonSrc)
    (ht : w.ImpliedType jsonSrc = .ok ty)
    (hu : w.Unmarshal jsonSrc ty = .ok (.ObjectVal attrs)) :
    (main w cl).evaluated = [{ Variables := attrs, Functions := functions }] := by
  obtain ⟨version, args⟩ := cl
  simp only at hv ha
  subst hv ha
  simp only [main, Bool.false_eq_true, if_false, List.length_singleton, ne_eq,
    not_true_eq_false, dite_false, List.getElem_cons_zero, List.nil_append, hf, hp, hs, ht, hu,
    CtyValue.Type, CtyType.IsObjectType, CtyValue.AsValueMap, Bool.not_true]
  repeat' split
  all_goals try simp only [exitWithDiags_evaluated]
  all_goals simp [Run.evaluated, evaluatedOf, Proc.emit, Proc.setFile]

/-- Claim C3: when the template parses without error, standard input decodes
to an object, evaluation reports no error and its result converts to the
string `s`, standard output receives exactly one write, of `s` itself, and the
exit status is 0. -/
theorem string_result_written_verbatim (w : World) (cl : CommandLine) (tmplFn : String)
    (tmplSrc jsonSrc : Bytes) (ty : CtyType) (attrs : List (String × CtyValue)) (s : String)
    (hv : cl.version = false) (ha : cl.args = [tmplFn])
    (hf : w.ReadFile tmplFn = .ok tmplSrc)
    (hp : HasErrors (w.ParseTemplate tmplSrc tmplFn { Line := 1, Column := 1 }).2 = false)
    (hs : w.ReadAllStdin = .ok jsonSrc)
    (ht : w.ImpliedType jsonSrc = .ok ty)
    (hu : w.Unmarshal jsonSrc ty = .ok (.ObjectVal attrs))
    (he : HasErrors ((w.ParseTemplate tmplSrc tmplFn { Line := 1, Column := 1 }).1.Value
      { Variables := attrs, Functions := functions }).2 = false)
    (hc : w.Convert ((w.ParseTemplate tmplSrc tmplFn { Line := 1, Column := 1 }).1.Value
      { Variables := attrs, Functions := functions }).1 .string = .ok (.StringVal s)) :
    (main w cl).stdout = [s] ∧ (main w cl).status = .exit 0 ∧ (main w cl).status.code = 0 := by
  obtain ⟨version, args⟩ := cl
  simp only at hv ha
  subst hv ha
  simp [main, hf, hp, hs, ht, hu, he, hc, CtyValue.Type, CtyType.IsObjectType,
    CtyValue.AsValueMap, CtyValue.AsString, CtyType.Equals, Run.stdout, stdoutOf, Proc.emit,
    Proc.setFile, Status.code]

/-- Claim C1, amended: when the template file is read and standard input
decodes to a value that is not of an object type, the run exits with status 1,
writes nothing to standard output and never evaluates; if the template parsed
without error the rendered diagnostics are those of the parse followed by
"Invalid input data" / "Input data on stdin must be a JSON object.", and if
the parse reported an error they are the parse diagnostics alone and standard
input is not read. -/
theorem input_not_an_object (w : World) (cl : CommandLine) (tmplFn : String)
    (tmplSrc jsonSrc : Bytes) (ty : CtyType) (val : CtyValue)
    (hv : cl.version = false) (ha : cl.args = [tmplFn])
    (hf : w.ReadFile tmplFn = .ok tmplSrc)
    (hs : w.ReadAllStdin = .ok jsonSrc)
    (ht : w.ImpliedType jsonSrc = .ok ty)
    (hu : w.Unmarshal jsonSrc ty = .ok val)
    (ho : val.Type.IsObjectType = false) :
    (main w cl).status = .exit 1 ∧ (main w cl).stdout = [] ∧ (main w cl).evaluated = [] ∧
    (HasErrors (w.ParseTemplate tmplSrc tmplFn { Line := 1, Column := 1 }).2 = false →
      (main w cl).rendered =
        (w.ParseTemplate tmplSrc tmplFn { Line := 1, Column := 1 }).2 ++
          [{ Severity := .DiagError, Summary := "Invalid input data",
             Detail := "Input data on stdin must be a JSON object." }]) ∧
    (HasErrors (w.ParseTemplate tmplSrc tmplFn { Line := 1, Column := 1 }).2 = true →
      (main w cl).rendered = (w.ParseTemplate tmplSrc tmplFn { Line := 1, Column := 1 }).2 ∧
      (main w cl).readsStdin = false) := by
  cases hp : HasErrors (w.ParseTemplate tmplSrc tmplFn { Line := 1, Column := 1 }).2 with
  | false =>
    rw [main_not_object w cl tmplFn tmplSrc jsonSrc ty val hv ha hf hp hs ht hu ho]
    refine ⟨exitWithDiags_status _ _ _ (hasErrors_append_error _ _ rfl), ?_, ?_, ?_, ?_⟩
    · rw [exitWithDiags_stdout]
      simp [stdoutOf, decodedProc, parsedProc, start, Proc.emit, Proc.setFile]
    · rw [exitWithDiags_evaluated]
      simp [evaluatedOf, decodedProc, parsedProc, start, Proc.emit, Proc.setFile]
    · intro _
      rw [exitWithDiags_rendered]
      simp [renderedOf, decodedProc, parsedProc, start, Proc.emit, Proc.setFile,
        invalidInputData]
    · intro h
      cases h
  | true =>
    rw [main_parse_error w cl tmplFn tmplSrc hv ha hf hp]
    refine ⟨exitWithDiags_status _ _ _ hp, ?_, ?_, ?_, ?_⟩
    · rw [exitWithDiags_stdout]
      simp [stdoutOf, parsedProc, start, Proc.emit, Proc.setFile]
    · rw [exitWithDiags_evaluated]
      simp [evaluatedOf, parsedProc, start, Proc.emit, Proc.setFile]
    · intro h
      cases h
    · intro _
      rw [exitWithDiags_rendered, exitWithDiags_readsStdin]
      simp [renderedOf, readsStdinOf, parsedProc, start, Proc.emit, Proc.setFile]

/-- Claim C6: the keys of the map `functions` returns are the 23 listed names,
each once: every listed name is a key and no other name is.  `functions` takes
no argument, so its result depends on no input. -/
theorem functions_names :
    functions.map Prod.fst =
      ["abs", "can", "csvdecode", "coalesce", "concat", "convert", "format", "formatdate",
       "int", "jsondecode", "jsonencode", "length", "lower", "max", "min", "range", "regex",
       "regexall", "reverse", "strlen", "substr", "try", "upper"] ∧
    (functions.map Prod.fst).Nodup ∧
    functions.length = 23 ∧
    (∀ name : String, (∃ f, (name, f) ∈ functions) ↔
      name ∈ ["abs", "can", "csvdecode", "coalesce", "concat", "convert", "format",
        "formatdate", "int", "jsondecode", "jsonencode", "length", "lower", "max", "min",
        "range", "regex", "regexall", "reverse", "strlen", "substr", "try", "upper"]) := by
  refine ⟨rfl, by decide, rfl, ?_⟩
  intro name
  have hkeys : (∃ f, (name, f) ∈ functions) ↔ name ∈ functions.map Prod.fst := by
    simp [List.mem_map]
  rw [hkeys]
  exact Iff.rfl

/-- Every run with one positional argument and no version flag ends in one of
three ways: with status 1 after rendering diagnostics that hold an error, with
status 0 after rendering nothing, or in a panic after rendering nothing. -/
theorem exit_status_cases (w : World) (cl : CommandLine)
    (hv : cl.version = false) (ha : cl.args.length = 1) :
    ((main w cl).status = .exit 1 ∧ HasErrors (main w cl).rendered = true) ∨
    ((main w cl).status = .exit 0 ∧ (main w cl).rendered = []) ∨
    (∃ msg, (main w cl).status = .panic msg ∧ (main w cl).rendered = []) := by
  obtain ⟨version, args⟩ := cl
  simp only at hv ha
  subst hv
  obtain ⟨tmplFn, rfl⟩ := args_singleton args ha
  simp only [main, Bool.false_eq_true, if_false, List.length_singleton, ne_eq,
    not_true_eq_false, dite_false, List.getElem_cons_zero, List.nil_append]
  repeat' split
  all_goals first
    | (left
       refine ⟨exitWithDiags_status _ _ _ ?_, ?_⟩
       · first
           | assumption
           | simp_all [HasErrors]
       · rw [exitWithDiags_rendered]
         simp only [renderedOf, Proc.emit, Proc.setFile, List.nil_append, List.cons_append,
           List.filterMap_cons, List.filterMap_nil, List.flatten_nil]
         first
           | assumption
           | simp_all [HasErrors])
    | exact Or.inr (Or.inl ⟨rfl, by simp [Run.rendered, renderedOf, Proc.emit, Proc.setFile]⟩)
    | exact Or.inr (Or.inr ⟨_, rfl, by simp [Run.rendered, renderedOf, Proc.emit, Proc.setFile]⟩)

/-- Scenario D, an instance of `input_not_an_object`: the array [1,2,3] with a
template that parses. -/
theorem input_not_an_object_witness :
    (main scenarioD ⟨false, ["plain.tmpl"]⟩).status = .exit 1 ∧
    (main scenarioD ⟨false, ["plain.tmpl"]⟩).rendered =
      [{ Severity := .DiagError, Summary := "Invalid input data",
         Detail := "Input data on stdin must be a JSON object." }] :=
  have h := input_not_an_object scenarioD ⟨false, ["plain.tmpl"]⟩ "plain.tmpl"
    [112, 108, 97, 105, 110, 32, 116, 101, 120, 116] [91, 49, 44, 50, 44, 51, 93]
    (.tuple [.number, .number, .number])
    (.TupleVal [.NumberVal 1, .NumberVal 2, .NumberVal 3]) rfl rfl rfl rfl rfl rfl rfl
  ⟨h.1, h.2.2.2.1 rfl⟩

/-- Claim C1 as stated fails: with the array [1,2,3] on standard input and a
template that has a syntax error, the run reports the syntax error alone; the
invalid-input diagnostic is not rendered and standard input is not read. -/
theorem syntax_error_hides_input_shape :
    brokenTemplateArrayInput.ReadAllStdin = .ok [91, 49, 44, 50, 44, 51, 93] ∧
    brokenTemplateArrayInput.Unmarshal [91, 49, 44, 50, 44, 51, 93]
        (.tuple [.number, .number, .number]) =
      .ok (.TupleVal [.NumberVal 1, .NumberVal 2, .NumberVal 3]) ∧
    (CtyValue.TupleVal [.NumberVal 1, .NumberVal 2, .NumberVal 3]).Type.IsObjectType = false ∧
    (main brokenTemplateArrayInput ⟨false, ["broken.tmpl"]⟩).rendered = [unclosedInterpolation] ∧
    invalidInputData ∉ (main brokenTemplateArrayInput ⟨false, ["broken.tmpl"]⟩).rendered ∧
    (main brokenTemplateArrayInput ⟨false, ["broken.tmpl"]⟩).readsStdin = false ∧
    (main brokenTemplateArrayInput ⟨false, ["broken.tmpl"]⟩).status = .exit 1 := by
  refine ⟨rfl, rfl, rfl, by decide, by decide, by decide, by decide⟩

/-- Scenario A, an instance of `error_before_evaluate`: the evaluator runs and
every earlier stage succeeded. -/
theorem error_before_evaluate_witness :
    (main scenarioA ⟨false, ["greeting.tmpl"]⟩).evaluated ≠ [] ∧
    ∃ tmplFn tmplSrc jsonSrc ty val,
      ["greeting.tmpl"] = [tmplFn] ∧
      scenarioA.ReadFile tmplFn = .ok tmplSrc ∧
      HasErrors (scenarioA.ParseTemplate tmplSrc tmplFn { Line := 1, Column := 1 }).2 = false ∧
      scenarioA.ReadAllStdin = .ok jsonSrc ∧
      scenarioA.ImpliedType jsonSrc = .ok ty ∧
      scenarioA.Unmarshal jsonSrc ty = .ok val ∧
      val.Type.IsObjectType = true :=
  have h : (main scenarioA ⟨false, ["greeting.tmpl"]⟩).evaluated ≠ [] := by
    rw [show (main scenarioA ⟨false, ["greeting.tmpl"]⟩).evaluated =
      [{ Variables := [("name", .StringVal "World")], Functions := functions }] from rfl]
    simp
  ⟨h, (error_before_evaluate scenarioA ⟨false, ["greeting.tmpl"]⟩ h).2⟩

/-- Scenario A, an instance of `string_result_written_verbatim`. -/
theorem string_result_written_verbatim_witness :
    (main scenarioA ⟨false, ["greeting.tmpl"]⟩).stdout = ["Hello, World!"] ∧
    (main scenarioA ⟨false, ["greeting.tmpl"]⟩).status = .exit 0 ∧
    (main scenarioA ⟨false, ["greeting.tmpl"]⟩).status.code = 0 :=
  string_result_written_verbatim scenarioA ⟨false, ["greeting.tmpl"]⟩ "greeting.tmpl"
    [72, 101, 108, 108, 111, 44, 32, 36, 123, 110, 97, 109, 101, 125, 33]
    [123, 34, 110, 97, 109, 101, 34, 58, 32, 34, 87, 111, 114, 108, 100, 34, 125]
    (.object [("name", .string)]) [("name", .StringVal "World")] "Hello, World!"
    rfl rfl rfl rfl rfl rfl rfl rfl rfl

/-- Claim C5 at a failing input: for the template that is the single
interpolation of `x` and the object
whose member `x` is null, neither the parse nor the evaluation produces a
diagnostic and none is rendered, yet the exit status is 2, not 0. -/
theorem exit_status_two_without_diagnostics :
    (nullResult.ParseTemplate [36, 123, 120, 125] "x.tmpl" { Line := 1, Column := 1 }).2 = [] ∧
    ((nullResult.ParseTemplate [36, 123, 120, 125] "x.tmpl" { Line := 1, Column := 1 }).1.Value
      { Variables := [("x", .NullVal .dynamicPseudoType)], Functions := functions }).2 = [] ∧
    (main nullResult ⟨false, ["x.tmpl"]⟩).rendered = [] ∧
    (main nullResult ⟨false, ["x.tmpl"]⟩).status.code = 2 := by
  refine ⟨rfl, rfl, by decide, by decide⟩

/-- A run that fails on a syntax error, an instance of `no_partial_output`. -/
theorem no_partial_output_witness :
    (main brokenTemplateArrayInput ⟨false, ["broken.tmpl"]⟩).status.code = 1 ∧
    (main brokenTemplateArrayInput ⟨false, ["broken.tmpl"]⟩).stdout = [] ∧
    (main brokenTemplateArrayInput ⟨false, ["broken.tmpl"]⟩).stdout.length ≤ 1 :=
  have h := no_partial_output brokenTemplateArrayInput ⟨false, ["broken.tmpl"]⟩ rfl rfl
  ⟨by decide, h.1 (by decide), h.2.1⟩

/-- The object with the null member `x`, an instance of
`evaluation_context_is_root_object`: the null stays a variable value. -/
theorem evaluation_context_is_root_object_witness :
    (main nullResult ⟨false, ["x.tmpl"]⟩).evaluated =
      [{ Variables := [("x", .NullVal .dynamicPseudoType)], Functions := functions }] :=
  evaluation_context_is_root_object nullResult ⟨false, ["x.tmpl"]⟩ "x.tmpl"
    [36, 123, 120, 125] [123, 34, 120, 34, 58, 32, 110, 117, 108, 108, 125]
    (.object [("x", .dynamicPseudoType)]) [("x", .NullVal .dynamicPseudoType)]
    rfl rfl rfl rfl rfl rfl rfl

/-- Claim C10 at a failing input: for the template that is the single
interpolation of `x` and the object
whose member `x` is null, evaluation returns the null value without a
diagnostic, the conversion to string succeeds with the null string, whose type
is string, and extracting the Go string panics: the run ends in a panic with
nothing written and no diagnostic reported. -/
theorem null_result_panics :
    (interpolation "x").Value
        { Variables := [("x", .NullVal .dynamicPseudoType)], Functions := functions } =
      (.NullVal .dynamicPseudoType, []) ∧
    nullResult.Convert (.NullVal .dynamicPseudoType) .string = .ok (.NullVal .string) ∧
    (CtyValue.NullVal .string).Type.Equals .string = true ∧
    (CtyValue.NullVal .string).AsString = .error "value is null" ∧
    (main nullResult ⟨false, ["x.tmpl"]⟩).status = .panic "value is null" ∧
    (main nullResult ⟨false, ["x.tmpl"]⟩).stdout = [] ∧
    (main nullResult ⟨false, ["x.tmpl"]⟩).rendered = [] := by
  refine ⟨rfl, rfl, rfl, rfl, by decide, by decide, by decide⟩

end hcltemplate
